import Mathlib

/-!
Verification of the pyc marshal-format decoder (src/format/python/pyc.go).

The decoder is embedded shallowly: the byte stream is a `List Nat` of byte
values, the cursor is passed explicitly (each reader returns the value read
and the remaining stream), and fallible reads return `Except`.  The recursive
object decoder `r_object` of the Go source is embedded as `r_objectF`, a
fuel-indexed function; the fuel is an artifact of the embedding needed for
termination, and the public wrapper `r_object` supplies a fuel that always
dominates the recursion depth (every recursive call consumes at least the
one-byte tag of the object it decodes, and each decoding step burns at most
four fuel units per consumed byte).

Primitive readers (`d.U8`, `d.FieldS32`, `d.FieldU32`, `d.FieldS64`,
`d.FieldF64`, `d.FieldRawLen`, `d.FieldStr`, `d.FieldUTF8ShortString`) and
the array helper `d.FieldStructNArray` belong to the repository framework
package `pkg/decode`, which is not under src/; they are modelled from the
spec where noted.
-/

namespace Pyc

/- Type tag byte values, from the constant block of src/format/python/pyc.go.
   The Go source writes them as character literals; here they are the
   corresponding ASCII codes. -/

def TYPE_NULL : Nat := 48            -- char 0
def TYPE_NONE : Nat := 78            -- N
def TYPE_FALSE : Nat := 70           -- F
def TYPE_TRUE : Nat := 84            -- T
def TYPE_STOPITER : Nat := 83        -- S
def TYPE_ELLIPSIS : Nat := 46        -- .
def TYPE_BINARY_FLOAT : Nat := 103   -- g
def TYPE_BINARY_COMPLEX : Nat := 121 -- y
def TYPE_LONG : Nat := 108           -- l
def TYPE_STRING : Nat := 115         -- s
def TYPE_TUPLE : Nat := 40           -- left paren
def TYPE_LIST : Nat := 91            -- left bracket
def TYPE_DICT : Nat := 123           -- left brace
def TYPE_CODE : Nat := 99            -- c
def TYPE_UNICODE : Nat := 117        -- u
def TYPE_UNKNOWN : Nat := 63         -- question mark
def TYPE_SET : Nat := 60             -- <
def TYPE_FROZENSET : Nat := 62      -- >
def TYPE_SLICE : Nat := 58           -- :
def TYPE_INTERNED : Nat := 116       -- t
def TYPE_ASCII : Nat := 97           -- a
def TYPE_ASCII_INTERNED : Nat := 65  -- A
def TYPE_SHORT_ASCII : Nat := 122    -- z
def TYPE_SHORT_ASCII_INTERNED : Nat := 90 -- Z
def TYPE_INT : Nat := 105            -- i
def TYPE_SMALL_TUPLE : Nat := 41     -- right paren
def TYPE_COMPLEX : Nat := 120       -- x
def TYPE_FLOAT : Nat := 102          -- f
def TYPE_INT64 : Nat := 73           -- I
def TYPE_REF : Nat := 114            -- r

/-- FLAG_REF, the reference flag bit of a tag byte (src line 70). -/
def FLAG_REF : Nat := 128

/-- A byte stream.  Entries are byte values; readers reduce entries mod 256,
mirroring that the Go side reads 8-bit quantities. -/
abbrev Bytes := List Nat

/-- Decode errors.  Modelled from the spec (section 7 error taxonomy), since
error signalling lives in the framework package pkg/decode outside src/:
`truncated` stands for a primitive read past the end of the input,
`unsupported` for the abort raised by the intentionally unimplemented
variants of r_object, carrying the offending (flag-stripped) tag, and
`malformedLength` for a negative declared count or length. -/
inductive Err where
  | truncated
  | unsupported (tag : Nat)
  | malformedLength
deriving DecidableEq, Repr

/-- The decoded object tree, one constructor per payload shape produced by
r_object (src lines 121-235).  set/frozenset/tuple/small_tuple/list all emit
the same `n` + `items` shape in the source, so they share `seq`; the tag that
distinguishes them is returned alongside the object by the decoder.  The
`code` constructor holds the 16 fields of the code record in the exact order
the source reads them (src lines 212-228).  `unknown` is a tag byte that has
no case in the source switch (which has no default): no payload is read. -/
inductive PyObj where
  | null
  | none_
  | stopIteration
  | ellipsis
  | false_
  | true_
  | int (v : Int)
  | int64 (v : Int)
  | float (bits : Nat)
  | complex (re im : Nat)
  | bytes (data : Bytes)
  | str (data : Bytes)
  | seq (items : List PyObj)
  | dict (pairs : List (PyObj × PyObj))
  | code (argcount posonlyargcount kwonlyargcount stacksize flags : Int)
      (codeF consts names localsplusnames localspluskinds filename name qualname : PyObj)
      (firstlineno : Nat) (linetable exceptiontable : PyObj)
  | ref (index : Nat)
  | unknown (tag : Nat)

/-- Modelled from the spec: primitive reader for one unsigned byte (d.U8),
advancing the cursor; fewer bytes than required is TruncatedInput. -/
def readU8 : Bytes → Except Err (Nat × Bytes)
  | [] => .error .truncated
  | b :: s => .ok (b % 256, s)

/-- Modelled from the spec: primitive reader for a 4-byte little-endian
unsigned integer (d.U32 / d.FieldU32). -/
def readU32 : Bytes → Except Err (Nat × Bytes)
  | b0 :: b1 :: b2 :: b3 :: s =>
      .ok (b0 % 256 + 256 * (b1 % 256) + 65536 * (b2 % 256)
            + 16777216 * (b3 % 256), s)
  | _ => .error .truncated

/-- Modelled from the spec: primitive reader for an 8-byte little-endian
unsigned integer, the raw bit pattern also underlying d.FieldF64. -/
def readU64 : Bytes → Except Err (Nat × Bytes)
  | b0 :: b1 :: b2 :: b3 :: b4 :: b5 :: b6 :: b7 :: s =>
      .ok (b0 % 256 + 256 * (b1 % 256) + 65536 * (b2 % 256)
            + 16777216 * (b3 % 256) + 4294967296 * (b4 % 256)
            + 1099511627776 * (b5 % 256) + 281474976710656 * (b6 % 256)
            + 72057594037927936 * (b7 % 256), s)
  | _ => .error .truncated

/-- Two-complement reading of a 32-bit unsigned value as signed. -/
def toS32 (n : Nat) : Int :=
  if n < 2147483648 then (n : Int) else (n : Int) - 4294967296

/-- Two-complement reading of a 64-bit unsigned value as signed. -/
def toS64 (n : Nat) : Int :=
  if n < 9223372036854775808 then (n : Int) else (n : Int) - 18446744073709551616

/-- Modelled from the spec: primitive reader for a 4-byte little-endian
signed integer (d.FieldS32). -/
def readS32 (s : Bytes) : Except Err (Int × Bytes) := do
  let (n, s1) ← readU32 s
  .ok (toS32 n, s1)

/-- Modelled from the spec: primitive reader for an 8-byte little-endian
signed integer (d.FieldS64). -/
def readS64 (s : Bytes) : Except Err (Int × Bytes) := do
  let (n, s1) ← readU64 s
  .ok (toS64 n, s1)

/-- Modelled from the spec: reader for a counted run of raw bytes
(d.FieldRawLen / d.FieldStr payloads).  A negative declared length is
MalformedLength (spec section 7); running past the end is TruncatedInput. -/
def readBytesN (n : Int) (s : Bytes) : Except Err (Bytes × Bytes) :=
  if n < 0 then .error .malformedLength
  else if s.length < n.toNat then .error .truncated
  else .ok (s.take n.toNat, s.drop n.toNat)

mutual

/-- Embeds r_object (src lines 115-238).  Reads the tag byte, strips
FLAG_REF (for a byte b < 256, the source expression `code AND NOT 0x80`
equals b mod 128), dispatches on the stripped tag, and returns the stripped
tag together with the decoded object and the remaining stream.  The fuel
argument is an embedding artifact; see the wrapper `r_object`. -/
def r_objectF : Nat → Bytes → Except Err (Nat × PyObj × Bytes)
  | 0, _ => .error .truncated
  | fuel + 1, s => do
    let (b, s1) ← readU8 s
    let (o, s2) ← dispatchF fuel (b % 128) s1
    .ok (b % 128, o, s2)

/-- Embeds the switch of r_object (src lines 121-235), case for case and in
source order.  Cases that fall through to a shared body in the source
(ascii_interned/ascii, interned/unicode, set/frozenset) or have textually
identical bodies (tuple/list, the two short-ascii cases) are merged with a
disjunctive guard.  The long/float/complex/slice cases abort (the source
raises a fatal abort there); the final branch is the absent default case of
the source switch: nothing is read and the object carries no payload. -/
def dispatchF : Nat → Nat → Bytes → Except Err (PyObj × Bytes)
  | 0, _, _ => .error .truncated
  | fuel + 1, ty, s =>
    if ty = TYPE_NULL then .ok (.null, s)
    else if ty = TYPE_NONE then .ok (.none_, s)
    else if ty = TYPE_STOPITER then .ok (.stopIteration, s)
    else if ty = TYPE_ELLIPSIS then .ok (.ellipsis, s)
    else if ty = TYPE_FALSE then .ok (.false_, s)
    else if ty = TYPE_TRUE then .ok (.true_, s)
    else if ty = TYPE_INT then do
      let (v, s1) ← readS32 s
      .ok (.int v, s1)
    else if ty = TYPE_INT64 then do
      let (v, s1) ← readS64 s
      .ok (.int64 v, s1)
    else if ty = TYPE_LONG then .error (.unsupported ty)
    else if ty = TYPE_FLOAT then .error (.unsupported ty)
    else if ty = TYPE_BINARY_FLOAT then do
      let (bits, s1) ← readU64 s
      .ok (.float bits, s1)
    else if ty = TYPE_COMPLEX then .error (.unsupported ty)
    else if ty = TYPE_BINARY_COMPLEX then do
      let (re, s1) ← readU64 s
      let (im, s2) ← readU64 s1
      .ok (.complex re im, s2)
    else if ty = TYPE_STRING then do
      let (len, s1) ← readS32 s
      let (data, s2) ← readBytesN len s1
      .ok (.bytes data, s2)
    else if ty = TYPE_ASCII_INTERNED ∨ ty = TYPE_ASCII then do
      let (len, s1) ← readS32 s
      let (data, s2) ← readBytesN len s1
      .ok (.str data, s2)
    else if ty = TYPE_SHORT_ASCII_INTERNED ∨ ty = TYPE_SHORT_ASCII then do
      let (n, s1) ← readU8 s
      let (data, s2) ← readBytesN (Int.ofNat n) s1
      .ok (.str data, s2)
    else if ty = TYPE_INTERNED ∨ ty = TYPE_UNICODE then do
      let (len, s1) ← readS32 s
      let (data, s2) ← readBytesN len s1
      .ok (.str data, s2)
    else if ty = TYPE_SMALL_TUPLE then do
      let (n, s1) ← readU8 s
      let (items, s2) ← read_listF fuel (Int.ofNat n) s1
      .ok (.seq items, s2)
    else if ty = TYPE_TUPLE ∨ ty = TYPE_LIST then do
      let (n, s1) ← readS32 s
      let (items, s2) ← read_listF fuel n s1
      .ok (.seq items, s2)
    else if ty = TYPE_DICT then do
      let (pairs, s1) ← r_dictF fuel s
      .ok (.dict pairs, s1)
    else if ty = TYPE_SET ∨ ty = TYPE_FROZENSET then do
      let (n, s1) ← readS32 s
      let (items, s2) ← read_listF fuel n s1
      .ok (.seq items, s2)
    else if ty = TYPE_CODE then r_codeF fuel s
    else if ty = TYPE_REF then do
      let (n, s1) ← readU32 s
      .ok (.ref n, s1)
    else if ty = TYPE_SLICE then .error (.unsupported ty)
    else .ok (.unknown ty, s)

/-- Embeds read_list (src lines 109-113): decodes `n` consecutive objects.
The negative-count branch is modelled from the spec (section 4.4: a count
below zero is a malformed-length error), since the iteration helper
d.FieldStructNArray is framework code outside src/. -/
def read_listF : Nat → Int → Bytes → Except Err (List PyObj × Bytes)
  | 0, _, _ => .error .truncated
  | fuel + 1, n, s =>
    if n < 0 then .error .malformedLength
    else if n = 0 then .ok ([], s)
    else do
      let (_, o, s1) ← r_objectF fuel s
      let (os, s2) ← read_listF fuel (n - 1) s1
      .ok (o :: os, s2)

/-- Embeds the TYPE_DICT loop of r_object (src lines 188-204).  Each
iteration decodes a key; a Null-tagged key ends the loop (the sentinel key
carries no payload and is not part of the pair list).  Otherwise a value is
decoded and the pair recorded; a Null-tagged value also sets the end flag in
the source, so the loop stops after recording that pair. -/
def r_dictF : Nat → Bytes → Except Err (List (PyObj × PyObj) × Bytes)
  | 0, _ => .error .truncated
  | fuel + 1, s => do
    let (kt, k, s1) ← r_objectF fuel s
    if kt = TYPE_NULL then .ok ([], s1)
    else do
      let (vt, v, s2) ← r_objectF fuel s1
      if vt = TYPE_NULL then .ok ([(k, v)], s2)
      else do
        let (ps, s3) ← r_dictF fuel s2
        .ok ((k, v) :: ps, s3)

/-- Embeds the TYPE_CODE case of r_object (src lines 212-228): five signed
32-bit fields, eight recursively decoded objects, one unsigned 32-bit field,
two recursively decoded objects, in exactly the source order. -/
def r_codeF : Nat → Bytes → Except Err (PyObj × Bytes)
  | 0, _ => .error .truncated
  | fuel + 1, s => do
    let (argcount, s1) ← readS32 s
    let (posonlyargcount, s2) ← readS32 s1
    let (kwonlyargcount, s3) ← readS32 s2
    let (stacksize, s4) ← readS32 s3
    let (flags, s5) ← readS32 s4
    let (_, codeF, s6) ← r_objectF fuel s5
    let (_, consts, s7) ← r_objectF fuel s6
    let (_, names, s8) ← r_objectF fuel s7
    let (_, localsplusnames, s9) ← r_objectF fuel s8
    let (_, localspluskinds, s10) ← r_objectF fuel s9
    let (_, filename, s11) ← r_objectF fuel s10
    let (_, name, s12) ← r_objectF fuel s11
    let (_, qualname, s13) ← r_objectF fuel s12
    let (firstlineno, s14) ← readU32 s13
    let (_, linetable, s15) ← r_objectF fuel s14
    let (_, exceptiontable, s16) ← r_objectF fuel s15
    .ok (.code argcount posonlyargcount kwonlyargcount stacksize flags
        codeF consts names localsplusnames localspluskinds filename name
        qualname firstlineno linetable exceptiontable, s16)

end

/-- The public object decoder: r_object of the source, with fuel supplied by
the wrapper.  Every fuel unit spent on the chain through `dispatchF`,
`read_listF`, `r_dictF` and `r_codeF` accompanies at least one consumed input
byte per decoded object, so `4 * length + 8` always dominates the recursion
needed for the given stream. -/
def r_object (s : Bytes) : Except Err (Nat × PyObj × Bytes) :=
  r_objectF (4 * s.length + 8) s

/-- The fields read by decodePYC before the top-level object (src lines
240-247), in source order, plus the decoded top-level object. -/
structure PycFile where
  magic : Nat
  bitField : Bytes
  timestamp : Nat
  length : Nat
  object : PyObj

/-- Embeds decodePYC (src lines 240-251): magic u32, four raw bytes, the
timestamp u32 and the declared length u32, all little-endian, then exactly
one r_object call for the top-level object. -/
def decodePYC (s : Bytes) : Except Err (PycFile × Bytes) := do
  let (magic, s1) ← readU32 s
  let (bitField, s2) ← readBytesN 4 s1
  let (timestamp, s3) ← readU32 s2
  let (length, s4) ← readU32 s3
  let (_, object, s5) ← r_object s4
  .ok (⟨magic, bitField, timestamp, length, object⟩, s5)

/-- Exact rational value of a finite IEEE-754 double given by its 64-bit
pattern (the interpretation applied by d.FieldF64, which converts the 8
little-endian payload bytes of a binary_float to a double).  Exponent 2047
patterns (infinities, NaN) have no rational value and are mapped to 0. -/
def f64ToRat (bits : Nat) : ℚ :=
  let sign : ℚ := if bits / 9223372036854775808 % 2 = 1 then -1 else 1
  let e := bits / 4503599627370496 % 2048
  let m := bits % 4503599627370496
  if e = 2047 then 0
  else if e = 0 then sign * (m : ℚ) / 2 ^ 1074
  else sign * ((4503599627370496 + m : ℕ) : ℚ) * 2 ^ e / 2 ^ 1075

/-- Little-endian 4-byte encoding of a value below 2^32, used to state
theorems about the 4-byte fields of the format. -/
def le32 (n : Nat) : Bytes :=
  [n % 256, n / 256 % 256, n / 65536 % 256, n / 16777216 % 256]

/-- The tag values that have a case in the switch of r_object (src lines
121-235), in source order.  TYPE_UNKNOWN (63) is defined in the constant
block but has no case, so it is deliberately absent here. -/
def casedTags : List Nat :=
  [TYPE_NULL, TYPE_NONE, TYPE_STOPITER, TYPE_ELLIPSIS, TYPE_FALSE, TYPE_TRUE,
   TYPE_INT, TYPE_INT64, TYPE_LONG, TYPE_FLOAT, TYPE_BINARY_FLOAT,
   TYPE_COMPLEX, TYPE_BINARY_COMPLEX, TYPE_STRING, TYPE_ASCII_INTERNED,
   TYPE_ASCII, TYPE_SHORT_ASCII_INTERNED, TYPE_SHORT_ASCII, TYPE_INTERNED,
   TYPE_UNICODE, TYPE_SMALL_TUPLE, TYPE_TUPLE, TYPE_LIST, TYPE_DICT,
   TYPE_SET, TYPE_FROZENSET, TYPE_CODE, TYPE_REF, TYPE_SLICE]

/-- Byte stream of k nested single-element small tuples around a None. -/
def nestedBytes : Nat → Bytes
  | 0 => [TYPE_NONE]
  | k + 1 => TYPE_SMALL_TUPLE :: 1 :: nestedBytes k

/-- The object tree decoded from `nestedBytes k`. -/
def nestedObj : Nat → PyObj
  | 0 => .none_
  | k + 1 => .seq [nestedObj k]

/-- The tag returned when decoding `nestedBytes k`. -/
def nestedTag : Nat → Nat
  | 0 => TYPE_NONE
  | _ + 1 => TYPE_SMALL_TUPLE

/-! ## Helper lemmas -/

theorem except_bind_ok {α β : Type} (a : α) (f : α → Except Err β) :
    ((Except.ok a : Except Err α) >>= f) = f a := rfl

theorem except_bind_error {α β : Type} (e : Err) (f : α → Except Err β) :
    ((Except.error e : Except Err α) >>= f) = .error e := rfl

/-- One unfolding step of the object decoder on a nonempty stream. -/
theorem r_objectF_cons (f b : Nat) (s : Bytes) :
    r_objectF (f + 1) (b :: s) =
      (dispatchF f (b % 256 % 128) s >>= fun os => .ok (b % 256 % 128, os.1, os.2)) := rfl

/-- A Null-tagged object decodes to the Null marker, consuming only its tag
byte, whenever at least two fuel units remain. -/
theorem r_objectF_null (g : Nat) (s : Bytes) (h : 2 ≤ g) :
    r_objectF g (TYPE_NULL :: s) = .ok (TYPE_NULL, .null, s) := by
  obtain ⟨g', rfl⟩ : ∃ g', g = g' + 2 := ⟨g - 2, by omega⟩
  rfl

/-- A None-tagged object decodes to the None marker, consuming only its tag
byte, whenever at least two fuel units remain. -/
theorem r_objectF_none (g : Nat) (s : Bytes) (h : 2 ≤ g) :
    r_objectF g (TYPE_NONE :: s) = .ok (TYPE_NONE, .none_, s) := by
  obtain ⟨g', rfl⟩ : ∃ g', g = g' + 2 := ⟨g - 2, by omega⟩
  rfl

/-- Reading back the little-endian encoding of a 32-bit value. -/
theorem readU32_le32 (n : Nat) (rest : Bytes) (h : n < 4294967296) :
    readU32 (le32 n ++ rest) = .ok (n, rest) := by
  simp only [le32, List.cons_append, List.nil_append, readU32]
  congr 2
  omega

/-- Reading back the little-endian encoding of a 32-bit value, signed. -/
theorem readS32_le32 (n : Nat) (rest : Bytes) (h : n < 4294967296) :
    readS32 (le32 n ++ rest) = .ok (toS32 n, rest) := by
  rw [readS32, readU32_le32 n rest h]
  rfl

/-- One unfolding step of the dispatcher on the small_tuple tag. -/
theorem dispatchF_smallTuple (g : Nat) (s : Bytes) :
    dispatchF (g + 1) TYPE_SMALL_TUPLE s =
      (readU8 s >>= fun ns =>
        read_listF g (Int.ofNat ns.1) ns.2 >>= fun is =>
          .ok (.seq is.1, is.2)) := rfl

/-- A sequence of declared count 1 is one decoded object. -/
theorem read_listF_one (g : Nat) (s : Bytes) :
    read_listF (g + 1) 1 s =
      (r_objectF g s >>= fun tr =>
        read_listF g 0 tr.2.2 >>= fun is => .ok (tr.2.1 :: is.1, is.2)) := rfl

/-- A sequence of declared count 0 is empty and consumes nothing. -/
theorem read_listF_zero (g : Nat) (s : Bytes) (h : 1 ≤ g) :
    read_listF g 0 s = .ok ([], s) := by
  obtain ⟨g', rfl⟩ : ∃ g', g = g' + 1 := ⟨g - 1, by omega⟩
  rfl

theorem nestedBytes_length (k : Nat) : (nestedBytes k).length = 2 * k + 1 := by
  induction k with
  | zero => rfl
  | succ k ih => simp only [nestedBytes, List.length_cons, ih]; omega

/-- Decoding the k-fold nested single-element small tuple succeeds whenever
the fuel dominates three times the nesting depth. -/
theorem nested_decode (k : Nat) : ∀ (f : Nat) (extra : Bytes), 3 * k + 2 ≤ f →
    r_objectF f (nestedBytes k ++ extra) = .ok (nestedTag k, nestedObj k, extra) := by
  induction k with
  | zero =>
    intro f extra hf
    obtain ⟨g, rfl⟩ : ∃ g, f = g + 2 := ⟨f - 2, by omega⟩
    exact r_objectF_none (g + 2) extra (by omega)
  | succ k ih =>
    intro f extra hf
    obtain ⟨g, rfl⟩ : ∃ g, f = g + 1 + 1 + 1 := ⟨f - 3, by omega⟩
    have hg : 3 * k + 2 ≤ g := by omega
    show r_objectF (g + 1 + 1 + 1) (TYPE_SMALL_TUPLE :: 1 :: (nestedBytes k ++ extra)) = _
    rw [r_objectF_cons]
    rw [show TYPE_SMALL_TUPLE % 256 % 128 = TYPE_SMALL_TUPLE from rfl]
    rw [dispatchF_smallTuple]
    rw [show readU8 (1 :: (nestedBytes k ++ extra)) =
      .ok (1, nestedBytes k ++ extra) from rfl]
    simp only [except_bind_ok]
    rw [show (Int.ofNat (1, nestedBytes k ++ extra).1) = (1 : Int) from rfl]
    rw [read_listF_one]
    rw [ih g extra hg]
    simp only [except_bind_ok]
    rw [read_listF_zero g extra (by omega)]
    simp only [except_bind_ok, nestedTag, nestedObj]

/-- One unfolding step of the dispatcher on the four sequence tags that
carry a 4-byte signed count. -/
theorem dispatchF_seqTag (g t : Nat) (s : Bytes)
    (h : t = TYPE_TUPLE ∨ t = TYPE_LIST ∨ t = TYPE_SET ∨ t = TYPE_FROZENSET) :
    dispatchF (g + 1) t s =
      (readS32 s >>= fun ns =>
        read_listF g ns.1 ns.2 >>= fun is => .ok (.seq is.1, is.2)) := by
  rcases h with rfl | rfl | rfl | rfl <;> rfl

/-- One unfolding step of the dispatcher on the byte-string tag. -/
theorem dispatchF_stringTag (g : Nat) (s : Bytes) :
    dispatchF (g + 1) TYPE_STRING s =
      (readS32 s >>= fun ns =>
        readBytesN ns.1 ns.2 >>= fun ds => .ok (.bytes ds.1, ds.2)) := rfl

/-- One unfolding step of the dispatcher on the 4-byte-length text tags. -/
theorem dispatchF_textTag (g t : Nat) (s : Bytes)
    (h : t = TYPE_ASCII ∨ t = TYPE_UNICODE) :
    dispatchF (g + 1) t s =
      (readS32 s >>= fun ns =>
        readBytesN ns.1 ns.2 >>= fun ds => .ok (.str ds.1, ds.2)) := by
  rcases h with rfl | rfl <;> rfl

/-- One unfolding step of the dispatcher on the code tag. -/
theorem dispatchF_code (g : Nat) (s : Bytes) :
    dispatchF (g + 1) TYPE_CODE s = r_codeF g s := rfl

/-! ## Claims -/

/-- C1 counterexample: the claim says a Null-tagged object in the value
position is stored as a normal value and does not terminate the pair-reading
loop; on the stream `dict None Null None None Null` the loop would then read
a second pair and consume all six bytes.  Instead the decoder stops right
after the pair whose value is Null, returning one pair and leaving the last
three bytes unconsumed. -/
theorem c1_null_value_counterexample :
    r_object [123, 78, 48, 78, 78, 48] =
      .ok (123, .dict [(.none_, .null)], [78, 78, 48]) := rfl

/-- C1 (amended): the dict loop tests the sentinel in the key position, so
`key1 value1 key2 value2 NULL` with non-Null values decodes to exactly two
pairs, and a first Null key gives zero pairs without reading a value; but the
loop also tests the sentinel in the value position: a Null-tagged value is
stored with its key as a final pair and then terminates the loop, leaving all
following bytes unconsumed. -/
theorem c1_dict_sentinel_amended :
    r_object [123, 78, 84, 78, 70, 48] =
        .ok (123, .dict [(.none_, .true_), (.none_, .false_)], []) ∧
    r_object [123, 48, 99] = .ok (123, .dict [], [99]) ∧
    r_object [123, 78, 48, 99] = .ok (123, .dict [(.none_, .null)], [99]) :=
  ⟨rfl, rfl, rfl⟩

/-- C2 counterexample: byte 1 is not a defined type tag, yet the decoder
returns a successfully decoded object (with no payload) instead of failing
with an unknown-tag error. -/
theorem c2_unknown_tag_counterexample :
    r_object [1] = .ok (1, .unknown 1, []) := rfl

/-- C2 (amended): for every tag byte whose flag-stripped value has no case in
the dispatch switch, the decoder succeeds, returning the stripped tag as an
object with no payload and consuming no bytes beyond the tag byte; there is
no unknown-tag failure. -/
theorem c2_unknown_tag_amended (b : Nat) (s : Bytes)
    (h : b % 256 % 128 ∉ casedTags) :
    r_object (b :: s) = .ok (b % 256 % 128, .unknown (b % 256 % 128), s) := by
  have hf : 4 * (b :: s).length + 8 = (4 * s.length + 10 + 1) + 1 := by
    simp [List.length_cons]; omega
  rw [r_object, hf, r_objectF_cons]
  simp only [casedTags, List.mem_cons, List.not_mem_nil, or_false, not_or] at h
  obtain ⟨h1, h2, h3, h4, h5, h6, h7, h8, h9, h10, h11, h12, h13, h14, h15,
    h16, h17, h18, h19, h20, h21, h22, h23, h24, h25, h26, h27, h28, h29⟩ := h
  simp [dispatchF, h1, h2, h3, h4, h5, h6, h7, h8, h9, h10, h11, h12, h13,
    h14, h15, h16, h17, h18, h19, h20, h21, h22, h23, h24, h25, h26, h27,
    h28, h29, except_bind_ok]

/-- C2 amended witness at the concrete non-tag byte 2. -/
theorem c2_unknown_tag_amended_witness :
    (2 % 256 % 128 ∉ casedTags) ∧ r_object [2] = .ok (2, .unknown 2, []) :=
  ⟨by decide, c2_unknown_tag_amended 2 [] (by decide)⟩

/-- C3: a tag byte whose flag-stripped value is long, legacy float, legacy
complex or slice makes the decoder abort with an unsupported-variant error
that carries the offending stripped tag; no decoded value is ever returned
for such a stream. -/
theorem c3_unsupported_variants (b : Nat) (s : Bytes)
    (h : b % 256 % 128 = TYPE_LONG ∨ b % 256 % 128 = TYPE_FLOAT ∨
         b % 256 % 128 = TYPE_COMPLEX ∨ b % 256 % 128 = TYPE_SLICE) :
    r_object (b :: s) = .error (.unsupported (b % 256 % 128)) := by
  have hf : 4 * (b :: s).length + 8 = (4 * s.length + 10 + 1) + 1 := by
    simp [List.length_cons]; omega
  rw [r_object, hf, r_objectF_cons]
  rcases h with h | h | h | h <;> rw [h] <;> rfl

/-- C3 witness at the concrete long tag with an empty payload. -/
theorem c3_unsupported_variants_witness :
    (108 % 256 % 128 = TYPE_LONG) ∧ r_object [108] = .error (.unsupported 108) :=
  ⟨rfl, c3_unsupported_variants 108 [] (Or.inl rfl)⟩

/-- C4 counterexample: the claim says nesting deeper than the decoder's
depth bound, for example 100,000 nested single-element tuples, fails with a
dedicated DepthExceeded error.  Instead that exact input decodes
successfully: there is no depth bound and no such error. -/
theorem c4_depth_counterexample :
    r_object (nestedBytes 100000) = .ok (TYPE_SMALL_TUPLE, nestedObj 100000, []) := by
  rw [r_object]
  rw [show (nestedBytes 100000).length = 200001 from by rw [nestedBytes_length]]
  have h := nested_decode 100000 800012 [] (by norm_num)
  rw [List.append_nil] at h
  rw [show (4 : Nat) * 200001 + 8 = 800012 from by norm_num, h]
  rfl

/-- C4 (amended): the decoder imposes no recursion-depth bound and has no
DepthExceeded error; recursion is bounded only by the input itself, and
nested single-element tuples of every depth decode successfully to the
corresponding nested tree. -/
theorem c4_no_depth_limit_amended (k : Nat) :
    r_object (nestedBytes k) = .ok (nestedTag k, nestedObj k, []) := by
  rw [r_object]
  have h := nested_decode k (4 * (nestedBytes k).length + 8) []
    (by rw [nestedBytes_length]; omega)
  rw [List.append_nil] at h
  exact h

/-- C5: setting the reference flag bit on any tag byte below 0x80 changes
nothing: the whole decode result (returned tag, decoded object, remaining
bytes) is identical with and without the flag, for every payload. -/
theorem c5_flag_stripping (t : Nat) (rest : Bytes) (h : t < 128) :
    r_object ((128 ||| t) :: rest) = r_object (t :: rest) := by
  have key : ∀ u, u < 128 → 128 ||| u = 128 + u := by decide
  rw [r_object, r_object]
  simp only [List.length_cons]
  rw [key t h]
  have hf : 4 * (rest.length + 1) + 8 = (4 * rest.length + 11) + 1 := by omega
  rw [hf, r_objectF_cons, r_objectF_cons]
  have e1 : (128 + t) % 256 % 128 = t := by omega
  have e2 : t % 256 % 128 = t := by omega
  rw [e1, e2]

/-- C5 witness: flagged and unflagged int tag on the same payload. -/
theorem c5_flag_stripping_witness :
    105 < 128 ∧
    r_object ((128 ||| 105) :: [42, 0, 0, 0]) = r_object (105 :: [42, 0, 0, 0]) :=
  ⟨by decide, c5_flag_stripping 105 [42, 0, 0, 0] (by decide)⟩

/-- C6: a code object is decoded as exactly sixteen fields in the strict
source order: argcount, posonlyargcount, kwonlyargcount, stacksize and flags
as 4-byte little-endian signed integers, then eight recursively decoded
objects (code, consts, names, localsplusnames, localspluskinds, filename,
name, qualname — here each a Null object), then firstlineno as a 4-byte
little-endian unsigned integer, then two more recursively decoded objects
(linetable, exceptiontable); everything after them is left unconsumed. -/
theorem c6_code_record_order (a1 a2 a3 a4 a5 fl : Nat) (rest : Bytes)
    (h1 : a1 < 4294967296) (h2 : a2 < 4294967296) (h3 : a3 < 4294967296)
    (h4 : a4 < 4294967296) (h5 : a5 < 4294967296) (h6 : fl < 4294967296) :
    r_object (TYPE_CODE :: (le32 a1 ++ (le32 a2 ++ (le32 a3 ++ (le32 a4 ++ (le32 a5 ++
        (TYPE_NULL :: TYPE_NULL :: TYPE_NULL :: TYPE_NULL :: TYPE_NULL :: TYPE_NULL ::
         TYPE_NULL :: TYPE_NULL :: (le32 fl ++ (TYPE_NULL :: TYPE_NULL :: rest))))))))) =
      .ok (TYPE_CODE,
        .code (toS32 a1) (toS32 a2) (toS32 a3) (toS32 a4) (toS32 a5)
          .null .null .null .null .null .null .null .null fl .null .null, rest) := by
  have hf : 4 * (TYPE_CODE :: (le32 a1 ++ (le32 a2 ++ (le32 a3 ++ (le32 a4 ++ (le32 a5 ++
      (TYPE_NULL :: TYPE_NULL :: TYPE_NULL :: TYPE_NULL :: TYPE_NULL :: TYPE_NULL ::
       TYPE_NULL :: TYPE_NULL :: (le32 fl ++ (TYPE_NULL :: TYPE_NULL :: rest))))))))).length + 8
      = ((4 * rest.length + 146) + 1) + 1 := by
    simp [le32, List.length_cons, List.length_append]; omega
  rw [r_object, hf, r_objectF_cons]
  rw [show TYPE_CODE % 256 % 128 = TYPE_CODE from rfl]
  rw [dispatchF_code]
  have hnull : ∀ s : Bytes, r_objectF (4 * rest.length + 145) (TYPE_NULL :: s) =
      .ok (TYPE_NULL, .null, s) := fun s => r_objectF_null _ s (by omega)
  simp only [r_codeF, readS32_le32, readU32_le32, hnull, except_bind_ok,
    h1, h2, h3, h4, h5, h6]

/-- C6 witness: concrete distinct field values, including a sign-bit pattern
decoding to argcount -1 while the same pattern in firstlineno stays the
unsigned 4294967295. -/
theorem c6_code_record_order_witness :
    4294967295 < 4294967296 ∧
    r_object (TYPE_CODE :: (le32 4294967295 ++ (le32 2 ++ (le32 3 ++ (le32 4 ++ (le32 5 ++
        (TYPE_NULL :: TYPE_NULL :: TYPE_NULL :: TYPE_NULL :: TYPE_NULL :: TYPE_NULL ::
         TYPE_NULL :: TYPE_NULL :: (le32 4294967295 ++ (TYPE_NULL :: TYPE_NULL :: [7]))))))))) =
      .ok (TYPE_CODE,
        .code (-1) 2 3 4 5 .null .null .null .null .null .null .null .null
          4294967295 .null .null, [7]) :=
  ⟨by norm_num,
   c6_code_record_order 4294967295 2 3 4 5 4294967295 [7] (by norm_num) (by norm_num)
     (by norm_num) (by norm_num) (by norm_num) (by norm_num)⟩

/-- C7: for every container variant with a 4-byte signed count or length
(tuple, list, set, frozenset, string, ascii, unicode), a negative declared
value is a malformed-length error; a successful sequence decode yields
exactly the declared number of objects; and a declared count of 0 yields an
empty sequence consuming no bytes beyond the count field. -/
theorem c7_counted_sequences :
    (∀ (t n : Nat) (rest : Bytes),
      (t = TYPE_TUPLE ∨ t = TYPE_LIST ∨ t = TYPE_SET ∨ t = TYPE_FROZENSET ∨
       t = TYPE_STRING ∨ t = TYPE_ASCII ∨ t = TYPE_UNICODE) →
      2147483648 ≤ n → n < 4294967296 →
      r_object (t :: (le32 n ++ rest)) = .error .malformedLength) ∧
    (∀ (fuel : Nat) (n : Int) (s : Bytes) (items : List PyObj) (rest : Bytes),
      read_listF fuel n s = .ok (items, rest) → items.length = n.toNat) ∧
    (∀ (t : Nat) (rest : Bytes),
      (t = TYPE_TUPLE ∨ t = TYPE_LIST ∨ t = TYPE_SET ∨ t = TYPE_FROZENSET) →
      r_object (t :: (le32 0 ++ rest)) = .ok (t, .seq [], rest)) := by
  refine ⟨?_, ?_, ?_⟩
  · intro t n rest ht h1 h2
    have hneg : toS32 n < 0 := by rw [toS32, if_neg (by omega)]; omega
    have hf : 4 * (t :: (le32 n ++ rest)).length + 8 = (4 * rest.length + 26 + 1) + 1 := by
      simp [le32, List.length_cons, List.length_append]; omega
    rw [r_object, hf, r_objectF_cons]
    rcases ht with rfl | rfl | rfl | rfl | rfl | rfl | rfl <;>
      simp only [show TYPE_TUPLE % 256 % 128 = TYPE_TUPLE from rfl,
        show TYPE_LIST % 256 % 128 = TYPE_LIST from rfl,
        show TYPE_SET % 256 % 128 = TYPE_SET from rfl,
        show TYPE_FROZENSET % 256 % 128 = TYPE_FROZENSET from rfl,
        show TYPE_STRING % 256 % 128 = TYPE_STRING from rfl,
        show TYPE_ASCII % 256 % 128 = TYPE_ASCII from rfl,
        show TYPE_UNICODE % 256 % 128 = TYPE_UNICODE from rfl] <;>
      first
      | (rw [dispatchF_seqTag _ _ _ (by decide), readS32_le32 n _ h2]
         simp only [except_bind_ok]
         rw [show (4 * rest.length + 26 : Nat) = (4 * rest.length + 25) + 1 from by omega]
         simp [read_listF, hneg, except_bind_error])
      | (rw [dispatchF_stringTag, readS32_le32 n _ h2]
         simp only [except_bind_ok]
         simp [readBytesN, hneg, except_bind_error])
      | (rw [dispatchF_textTag _ _ _ (by decide), readS32_le32 n _ h2]
         simp only [except_bind_ok]
         simp [readBytesN, hneg, except_bind_error])
  · intro fuel
    induction fuel with
    | zero => intro n s items rest h; simp [read_listF] at h
    | succ f ih =>
      intro n s items rest h
      simp only [read_listF] at h
      by_cases hn : n < 0
      · simp [hn] at h
      by_cases h0 : n = 0
      · simp [hn, h0] at h
        obtain ⟨h1, -⟩ := h
        simp [← h1, h0]
      · simp only [hn, h0, if_false] at h
        cases hobj : r_objectF f s with
        | error e => rw [hobj] at h; simp [except_bind_error] at h
        | ok tr =>
          obtain ⟨t1, o1, s1⟩ := tr
          rw [hobj] at h
          simp only [except_bind_ok] at h
          cases hrec : read_listF f (n - 1) s1 with
          | error e => rw [hrec] at h; simp [except_bind_error] at h
          | ok pr =>
            obtain ⟨os, s2⟩ := pr
            rw [hrec] at h
            simp only [except_bind_ok] at h
            simp only [Except.ok.injEq, Prod.mk.injEq] at h
            obtain ⟨h1, -⟩ := h
            have hl := ih (n - 1) s1 os s2 hrec
            rw [← h1, List.length_cons, hl]
            omega
  · intro t rest ht
    have hf : 4 * (t :: (le32 0 ++ rest)).length + 8 = (4 * rest.length + 26 + 1) + 1 := by
      simp [le32, List.length_cons, List.length_append]; omega
    rw [r_object, hf, r_objectF_cons]
    rcases ht with rfl | rfl | rfl | rfl <;>
      (simp only [show TYPE_TUPLE % 256 % 128 = TYPE_TUPLE from rfl,
         show TYPE_LIST % 256 % 128 = TYPE_LIST from rfl,
         show TYPE_SET % 256 % 128 = TYPE_SET from rfl,
         show TYPE_FROZENSET % 256 % 128 = TYPE_FROZENSET from rfl]
       rw [dispatchF_seqTag _ _ _ (by decide), readS32_le32 0 rest (by norm_num)]
       simp only [except_bind_ok]
       rw [show toS32 0 = (0 : Int) from rfl,
         read_listF_zero (4 * rest.length + 26) rest (by omega)]
       simp [except_bind_ok])

/-- C7 witness: a tuple whose declared 4-byte count has the sign bit set
fails as malformed; a one-element list decode returns one object; a list
with declared count 0 decodes to the empty sequence leaving the tail
untouched. -/
theorem c7_counted_sequences_witness :
    r_object (TYPE_TUPLE :: (le32 2147483648 ++ [])) = .error .malformedLength ∧
    ([PyObj.none_].length = (1 : Int).toNat) ∧
    r_object (TYPE_LIST :: (le32 0 ++ [5])) = .ok (TYPE_LIST, .seq [], [5]) :=
  ⟨c7_counted_sequences.1 TYPE_TUPLE 2147483648 [] (by decide) (by norm_num) (by norm_num),
   c7_counted_sequences.2.1 9 1 [78] [PyObj.none_] [] rfl,
   c7_counted_sequences.2.2 TYPE_LIST [5] (by decide)⟩

/-- C8: tag int with payload bytes 2A 00 00 00 decodes to the integer 42,
and tag binary_float with the little-endian IEEE-754 pattern of 1.5
(bytes 00 00 00 00 00 00 F8 3F, pattern 0x3FF8000000000000) decodes to a
float whose exact rational value is 3/2. -/
theorem c8_scalar_values :
    r_object [TYPE_INT, 42, 0, 0, 0] = .ok (TYPE_INT, .int 42, []) ∧
    r_object [TYPE_BINARY_FLOAT, 0, 0, 0, 0, 0, 0, 248, 63] =
      .ok (TYPE_BINARY_FLOAT, .float 4609434218613702656, []) ∧
    f64ToRat 4609434218613702656 = 3 / 2 :=
  ⟨rfl, rfl, by norm_num [f64ToRat]⟩

/-- C9: whenever the object decoder succeeds, the tag it returns has the
reference-flag bit 0x80 clear, so it is at most 0x7F; a flagged sentinel byte
can therefore never defeat a sentinel comparison made by a caller. -/
theorem c9_tag_flag_clear (s : Bytes) (t : Nat) (o : PyObj) (r : Bytes)
    (h : r_object s = .ok (t, o, r)) : t < 128 := by
  rw [r_object] at h
  obtain ⟨g, hg⟩ : ∃ g, 4 * s.length + 8 = g + 1 := ⟨4 * s.length + 7, by omega⟩
  rw [hg] at h
  cases s with
  | nil =>
    rw [show r_objectF (g + 1) ([] : Bytes) = .error .truncated from rfl] at h
    simp at h
  | cons b s' =>
    rw [r_objectF_cons] at h
    cases hd : dispatchF g (b % 256 % 128) s' with
    | error e => rw [hd, except_bind_error] at h; simp at h
    | ok pr =>
      rw [hd, except_bind_ok] at h
      simp only [Except.ok.injEq, Prod.mk.injEq] at h
      obtain ⟨h1, -⟩ := h
      omega

/-- C9 witness at the concrete stream consisting of a single None tag. -/
theorem c9_tag_flag_clear_witness :
    r_object [78] = .ok (78, PyObj.none_, []) ∧ 78 < 128 :=
  ⟨rfl, c9_tag_flag_clear [78] 78 .none_ [] rfl⟩

/-- C10: the top-level decode is deterministic: it is a pure function of the
input byte stream, so two runs on the same stream produce the same result
(same header fields, same decoded tree, same remaining bytes). -/
theorem c10_deterministic (s : Bytes) (r1 r2 : Except Err (PycFile × Bytes))
    (h1 : decodePYC s = r1) (h2 : decodePYC s = r2) : r1 = r2 := by
  rw [← h1, ← h2]

/-- C10 witness: two runs on a concrete 17-byte file agree on the fully
evaluated result. -/
theorem c10_deterministic_witness :
    decodePYC [1, 2, 3, 4, 9, 9, 9, 9, 0, 0, 0, 0, 5, 0, 0, 0, 78] =
      .ok (⟨67305985, [9, 9, 9, 9], 0, 5, .none_⟩, []) :=
  c10_deterministic [1, 2, 3, 4, 9, 9, 9, 9, 0, 0, 0, 0, 5, 0, 0, 0, 78]
    (decodePYC [1, 2, 3, 4, 9, 9, 9, 9, 0, 0, 0, 0, 5, 0, 0, 0, 78])
    (.ok (⟨67305985, [9, 9, 9, 9], 0, 5, .none_⟩, [])) rfl rfl

end Pyc
